import Mathlib

/-!
Shallow embedding of the lum discord bot (src/bot.py): message classification,
intent routing, store operations and the command handlers, together with
proofs of the specification claims about them.

Strings are modelled as lists of characters; Python's `str.lower`, `str.strip`,
`str.startswith`, substring tests and the regular expressions used by the bot
are translated to explicit executable functions on `List Char` (ASCII case
mapping, Python's whitespace class).  The SQLite tables become association
lists / append-only lists inside a `Stores` record, and the three external
executors (ChatGPT, image generation, Giphy) become oracle functions returning
`Option` results (`none` models a raised exception / failed call).
-/

namespace LumBot

/-- Strings as explicit character lists. -/
abbrev Str := List Char

/-- Coerce a Lean string literal to the `Str` model. -/
def str (s : String) : Str := s.data

/-- Python whitespace (`str.strip`, regex `\s`) restricted to ASCII. -/
def isPyWs (c : Char) : Bool :=
  c = ' ' || c = '\t' || c = '\n' || c = '\r' || c = '\x0b' || c = '\x0c'

/-- Python `str.lower`, character-wise, for the ASCII letters. -/
def pyLowerChar (c : Char) : Char :=
  if 'A' ≤ c && c ≤ 'Z' then Char.ofNat (c.toNat + 32) else c

/-- Python `str.lower` on a whole string (ASCII case mapping). -/
def pyLower (s : Str) : Str := s.map pyLowerChar

/-- Python `str.strip()`: drop leading and trailing whitespace. -/
def pyStrip (s : Str) : Str :=
  ((s.dropWhile isPyWs).reverse.dropWhile isPyWs).reverse

/-- Python `str.startswith` on the model strings. -/
def startsWith : Str → Str → Bool
  | [], _ => true
  | _ :: _, [] => false
  | c :: cs, d :: ds => c = d && startsWith cs ds

/-- Python `sub in s` (substring test). -/
def containsSub (sub : Str) : Str → Bool
  | [] => startsWith sub []
  | c :: cs => startsWith sub (c :: cs) || containsSub sub cs

/-- The part of `s` before the first occurrence of `sep`
(Python `s.split(sep, 1)[0]` when `sep` occurs in `s`). -/
def splitFirstBefore (sep : Str) : Str → Str
  | [] => []
  | c :: cs =>
    if startsWith sep (c :: cs) then [] else c :: splitFirstBefore sep cs

/-- Python `str.endswith`. -/
def endsWith (suf s : Str) : Bool := startsWith suf.reverse s.reverse

/-- Word characters for the regex `\b` boundary (`[A-Za-z0-9_]`, ASCII). -/
def isWordChar (c : Char) : Bool :=
  ('a' ≤ c && c ≤ 'z') || ('A' ≤ c && c ≤ 'Z') || ('0' ≤ c && c ≤ '9') || c = '_'

/-- Case-insensitive literal match at the start of `s`
(a regex literal under `re.IGNORECASE`; `lit` is given lowercased). -/
def startsWithCI (lit s : Str) : Bool := startsWith lit (pyLower s)

/-! ## The durable stores (the four SQLite tables of `bot.py`) -/

/-- The bot's durable state: the four tables of `chat_memory.db`.
`user_memory` and `lum_preferences` are upsert association lists,
`conversation_history` is append-only in `id` order, and
`allowed_channels` has insert-or-ignore semantics on the channel id. -/
structure Stores where
  user_memory : List (Nat × Str × Str)
  lum_preferences : List (Str × Str)
  conversation_history : List (Nat × Str × Str)
  allowed_channels : List (Nat × Str)
deriving DecidableEq, Repr

/-- The empty database. -/
def Stores.empty : Stores := ⟨[], [], [], []⟩

/-- `INSERT ... ON CONFLICT(key) DO UPDATE` on a one-key association list. -/
def upsert1 (k v : Str) : List (Str × Str) → List (Str × Str)
  | [] => [(k, v)]
  | (k', v') :: rest =>
    if k' = k then (k', v) :: rest else (k', v') :: upsert1 k v rest

/-- `INSERT ... ON CONFLICT(user_id, memory_key) DO UPDATE`. -/
def upsert2 (u : Nat) (k v : Str) : List (Nat × Str × Str) → List (Nat × Str × Str)
  | [] => [(u, k, v)]
  | (u', k', v') :: rest =>
    if u' = u && k' = k then (u', k', v) :: rest else (u', k', v') :: upsert2 u k v rest

/-- `set_user_memory`: store or update a fact about a user. -/
def set_user_memory (st : Stores) (user_id : Nat) (key value : Str) : Stores :=
  { st with user_memory := upsert2 user_id key value st.user_memory }

/-- `get_user_memory`: retrieve a fact about a user (`None` when absent). -/
def get_user_memory (st : Stores) (user_id : Nat) (key : Str) : Option Str :=
  (st.user_memory.find? fun e => e.1 = user_id && e.2.1 = key).map fun e => e.2.2

/-- `set_lum_preference`: store or update an opinion / setting. -/
def set_lum_preference (st : Stores) (key value : Str) : Stores :=
  { st with lum_preferences := upsert1 key value st.lum_preferences }

/-- `get_lum_preference`: retrieve an opinion / setting (`None` when absent). -/
def get_lum_preference (st : Stores) (key : Str) : Option Str :=
  (st.lum_preferences.find? fun e => e.1 = key).map fun e => e.2

/-- `add_conversation_message`: append one turn to the conversation history. -/
def add_conversation_message (st : Stores) (user_id : Nat) (role content : Str) : Stores :=
  { st with conversation_history := st.conversation_history ++ [(user_id, role, content)] }

/-- `get_conversation_history`: the last `limit` turns of one user,
oldest first (`SELECT role, content ... ORDER BY id DESC LIMIT ?`,
then `rows.reverse()`). -/
def get_conversation_history (st : Stores) (user_id : Nat) (limit : Nat) :
    List (Str × Str) :=
  let rows := (st.conversation_history.filter fun e => e.1 = user_id).map
    fun e => (e.2.1, e.2.2)
  ((rows.reverse.take limit).reverse)

/-- `add_allowed_channel`: `INSERT OR IGNORE` on the channel id. -/
def add_allowed_channel (st : Stores) (channel_id : Nat) (channel_name : Str) : Stores :=
  if st.allowed_channels.any fun e => e.1 = channel_id then st
  else { st with allowed_channels := st.allowed_channels ++ [(channel_id, channel_name)] }

/-- `get_allowed_channels`: the registered channel ids. -/
def get_allowed_channels (st : Stores) : List Nat :=
  st.allowed_channels.map fun e => e.1

/-! ## Inbound messages and the directed-at-bot classifier -/

/-- An inbound Discord message as seen by `on_message`:
`is_dm` models `isinstance(message.channel, discord.DMChannel)`,
`in_guild` models `message.guild is not None`,
`mentions_bot` models `client.user in message.mentions`. -/
structure Message where
  author_is_bot : Bool
  author_id : Nat
  channel_id : Nat
  channel_name : Str
  is_dm : Bool
  in_guild : Bool
  mentions_bot : Bool
  content : Str
deriving DecidableEq, Repr

/-- The greeting words of the two `greeting_patterns` regexes and of the
greeting-exclusion regex (`hello|hi|hey|yo|sup`). -/
def greetWords : List Str :=
  [str "hello", str "hi", str "hey", str "yo", str "sup"]

/-- `re.match(r"^(hello|hi|hey|yo|sup) lum\b", s)`: a greeting word, a space,
`lum`, and then a word boundary (end of string or a non-word character). -/
def matchGreetLum (s : Str) : Bool :=
  greetWords.any fun g =>
    startsWith (g ++ str " lum") s &&
      (match s.drop (g.length + 4) with
       | [] => true
       | c :: _ => !isWordChar c)

/-- `re.match(r"^(hello|hi|hey|yo|sup)\s*$", s)`: a greeting word followed by
nothing but whitespace. -/
def matchGreetAlone (s : Str) : Bool :=
  greetWords.any fun g => startsWith g s && (s.drop g.length).all isPyWs

/-- `re.match(r"^(hello|hi|hey|yo|sup)\s+\S+", s)`: a greeting word, at least
one whitespace character, then at least one non-whitespace character
(the greeting-someone-else exclusion). -/
def matchGreetOther (s : Str) : Bool :=
  greetWords.any fun g =>
    startsWith g s &&
      (match s.drop g.length with
       | [] => false
       | c :: cs => isPyWs c && !((c :: cs).dropWhile isPyWs).isEmpty)

/-- The `trigger_keywords` list of `is_message_directed_at_bot`. -/
def triggerKeywords : List Str :=
  [str "lum", str "bot", str "question", str "help", str "how are you",
   str "what's", str "whats", str "who", str "define", str "explain"]

/-- `is_message_directed_at_bot`: should the bot engage with this message. -/
def is_message_directed_at_bot (m : Message) : Bool :=
  if m.is_dm then true
  else if m.mentions_bot then true
  else
    let content := pyStrip (pyLower m.content)
    if matchGreetLum content || matchGreetAlone content then true
    else if matchGreetOther content then false
    else if triggerKeywords.any fun w => startsWith w content then true
    else if endsWith (str "?") content then true
    else false

/-! ## The regular expressions of the router and of the opinion handlers

Each regex of `bot.py` is embedded as an executable matcher with Python's
leftmost-match, greedy/lazy backtracking semantics, specialised to the
pattern's shape.  `.` never matches a newline (no `re.DOTALL` is used). -/

/-- The first `Option`-returning success in a list of candidates. -/
def firstSome {α β : Type} (f : α → Option β) : List α → Option β
  | [] => none
  | a :: as' => match f a with
    | some r => some r
    | none => firstSome f as'

/-- `[n, n-1, ..., 1]`: candidate lengths for a greedy (`\s+`) element. -/
def descList : Nat → List Nat
  | 0 => []
  | n + 1 => (n + 1) :: descList n

/-- `[1, 2, ..., n]`: candidate lengths for a lazy (`(.+?)`) element. -/
def ascList (n : Nat) : List Nat := (List.range n).map (· + 1)

/-- Match `\s+(.+)` against (a prefix of) `rest`, where `ws` counts the
leading-whitespace run of `rest`: `\s+` is greedy but backtracks so that the
greedy group `(.+)` can take at least one non-newline character.  Returns the
group. -/
def matchWsDotPlus : Nat → Str → Option Str
  | 0, _ => none
  | b + 1, rest =>
    match rest.drop (b + 1) with
    | [] => matchWsDotPlus b rest
    | c :: cs =>
      if c = '\n' then matchWsDotPlus b rest
      else some ((c :: cs).takeWhile fun x => !(x = '\n'))

/-- Match `\s+generate\s+(.+)` against `rest` (what follows `lum` in the
`\blum\s+generate\s+(.+)` regex); `rest` is already lowercased. -/
def genAfterLum (rest : Str) : Option Str :=
  let a := (rest.takeWhile isPyWs).length
  if a = 0 then none
  else
    let r2 := rest.drop a
    if startsWith (str "generate") r2 then
      let r3 := r2.drop 8
      matchWsDotPlus (r3.takeWhile isPyWs).length r3
    else none

/-- Scan for the leftmost match of `re.search(r'\blum\s+generate\s+(.+)', s)`;
`prev` is the character before the current position (for the `\b` boundary). -/
def genScan (prev : Option Char) : Str → Option Str
  | [] => none
  | c :: cs =>
    let boundary := match prev with
      | none => true
      | some p => !isWordChar p
    match (if boundary && startsWith (str "lum") (c :: cs) then
             genAfterLum ((c :: cs).drop 3)
           else none) with
    | some g => some g
    | none => genScan (some c) cs

/-- `re.search(r'\blum\s+generate\s+(.+)', s)`: the prompt group, if any. -/
def generateSearch (s : Str) : Option Str := genScan none s

/-- Match `(.+?)\s+(?:to|as)\s+(.+)` against `afterWs` (what follows the first
`\s+` of the set-opinion regex): the lazy subject tries the shortest length
first; after it, `\s+` can only take the maximal whitespace run (the next
element is a letter); `to`/`as` match case-insensitively (`re.IGNORECASE`). -/
def setOpinionAfterWs (afterWs : Str) : Option (Str × Str) :=
  firstSome (fun L =>
    let subj := afterWs.take L
    if subj.all fun c => !(c = '\n') then
      let rest := afterWs.drop L
      let b := (rest.takeWhile isPyWs).length
      if b = 0 then none
      else
        let r2 := rest.drop b
        if startsWithCI (str "to") r2 || startsWithCI (str "as") r2 then
          (matchWsDotPlus ((r2.drop 2).takeWhile isPyWs).length (r2.drop 2)).map
            fun op => (subj, op)
        else none
    else none) (ascList afterWs.length)

/-- Match `lum set your opinion on\s+(.+?)\s+(?:to|as)\s+(.+)` anchored at the
start of `s` (case-insensitively): the leading `\s+` is greedy, trying the
longest whitespace run first. -/
def setOpinionAt (s : Str) : Option (Str × Str) :=
  if startsWithCI (str "lum set your opinion on") s then
    let rest := s.drop 23
    firstSome (fun a => setOpinionAfterWs (rest.drop a))
      (descList (rest.takeWhile isPyWs).length)
  else none

/-- `re.search` of the set-opinion regex: leftmost matching start position. -/
def setOpinionScan : Str → Option (Str × Str)
  | [] => none
  | c :: cs => match setOpinionAt (c :: cs) with
    | some r => some r
    | none => setOpinionScan cs

/-- Match `lum what(?:'s|s| is) your opinion on\s+(.+)` anchored at the start
of `s` (case-insensitively): the alternation tries `'s`, `s`, ` is` in order,
backtracking into the next alternative when the rest of the pattern fails. -/
def getOpinionAt (s : Str) : Option Str :=
  if startsWithCI (str "lum what") s then
    let r := s.drop 8
    firstSome (fun alt =>
      if startsWithCI alt r then
        let r2 := r.drop alt.length
        if startsWithCI (str " your opinion on") r2 then
          matchWsDotPlus ((r2.drop 16).takeWhile isPyWs).length (r2.drop 16)
        else none
      else none) [str "'s", str "s", str " is"]
  else none

/-- `re.search` of the get-opinion regex: leftmost matching start position. -/
def getOpinionScan : Str → Option Str
  | [] => none
  | c :: cs => match getOpinionAt (c :: cs) with
    | some r => some r
    | none => getOpinionScan cs

/-! ## External executors -/

/-- The three external services, as oracles.  `none` models a raised
exception; for the GIF search the inner `Option` models an empty result set
(`data["data"]` falsy).  `giphy_key` models whether `GIPHY_API_KEY` is set. -/
structure Execs where
  gen : List (Str × Str) → Option Str
  img : Str → Option Str
  gif_search : Str → Option (Option Str)
  gif_random : Option (Option Str)
  giphy_key : Bool

/-! ## Command handlers -/

/-- `handle_set_channel`: register the channel (reply second). -/
def handle_set_channel (st : Stores) (m : Message) : Stores × Str :=
  let channel_name := if m.is_dm then str "DM" else m.channel_name
  (add_allowed_channel st m.channel_id channel_name,
   str "Channel **" ++ channel_name ++ str "** has been set for Lum to speak.")

/-- `handle_set_language`: `message.content[len("lum set language to"):]`,
stripped; empty means a usage-hint reply and no store write. -/
def handle_set_language (st : Stores) (content : Str) : Stores × Str :=
  let language := pyStrip (content.drop 19)
  if language.isEmpty then
    (st, str "please provide a language, e.g. 'lum set language to french'")
  else
    (set_lum_preference st (str "language") language,
     str "Language set to **" ++ language ++ str "**.")

/-- `handle_set_opinion`: extract `(subject, opinion)` with the two-group
regex; on a match, strip both groups and store the opinion. -/
def handle_set_opinion (st : Stores) (content : Str) : Stores × Str :=
  match setOpinionScan content with
  | none =>
    (st, str "Please use the format: 'lum set your opinion on <subject> to <opinion>'.")
  | some (subjG, opG) =>
    let subject := pyStrip subjG
    let opinion := pyStrip opG
    (set_lum_preference st subject opinion,
     str "Okay, I've set my opinion on **" ++ subject ++ str "** to: " ++ opinion)

/-- The ChatGPT user prompt built by `handle_get_opinion`. -/
def opinion_prompt (st : Stores) (subject : Str) : Str :=
  let language := get_lum_preference st (str "language")
  let language_instruction := match language with
    | some l => if l.isEmpty then [] else str " Respond in " ++ l ++ str "."
    | none => []
  str "You are lum, a laid-back discord bot with strong opinions about everything."
    ++ str " Provide your opinion on " ++ subject ++ str " in one short sentence."
    ++ language_instruction ++ str " Do not say that you have no opinion."

/-- `handle_get_opinion`: look the subject up; on a miss (or an empty stored
value, which Python's truthiness treats as a miss) generate an opinion, strip
it and memoize it.  The third component counts text-generation calls. -/
def handle_get_opinion (st : Stores) (gen : Str → Option Str) (content : Str) :
    Stores × Str × Nat :=
  match getOpinionScan content with
  | none =>
    (st, str "Please ask in the format: 'lum what's your opinion on <subject>'.", 0)
  | some subjG =>
    let subject := pyStrip subjG
    let opinion := get_lum_preference st subject
    if !(opinion.getD []).isEmpty then
      (st, str "My opinion on **" ++ subject ++ str "** is: " ++ opinion.getD [], 0)
    else
      match gen (opinion_prompt st subject) with
      | some resp =>
        let generated_opinion := pyStrip resp
        (set_lum_preference st subject generated_opinion,
         str "My opinion on **" ++ subject ++ str "** is: " ++ generated_opinion, 1)
      | none =>
        (st, str "Sorry, I couldn't generate an opinion on that right now.", 1)

/-- The system-instruction and history request built by `handle_bot_message`
from the state after the user turn was appended. -/
def converse_request (st1 : Stores) (user_id : Nat) : List (Str × Str) :=
  let history := get_conversation_history st1 user_id 10
  let user_memory := get_user_memory st1 user_id (str "user_name")
  let memory_intro := match user_memory with
    | some u => if u.isEmpty then [] else str "this user is called " ++ u ++ str ". "
    | none => []
  let language := get_lum_preference st1 (str "language")
  let language_instruction := match language with
    | some l => if l.isEmpty then [] else str " Respond in " ++ l ++ str "."
    | none => []
  (str "system",
   str "you are lum, a laid-back discord bot. you always use lowercase and keep responses short. "
     ++ memory_intro
     ++ str "never add extra words, never start a conversation, never introduce yourself. if someone greets you, respond minimally ('hey.', 'yo.', 'hi.') and nothing more. if someone asks how you're doing, respond with 'fine.' or 'alright.'. if answering a factual question, provide the answer and stop. do not add anything extra."
     ++ language_instruction) :: history

/-- `handle_bot_message`: lowercase and strip the text, append the user turn,
call ChatGPT on the context window; on success lowercase the reply, append the
assistant turn and reply; on failure only print (no reply, no further write —
but the user turn stays appended). -/
def handle_bot_message (st : Stores) (gen : List (Str × Str) → Option Str)
    (user_id : Nat) (content : Str) : Stores × Option Str :=
  let content' := pyStrip (pyLower content)
  let st1 := add_conversation_message st user_id (str "user") content'
  match gen (converse_request st1 user_id) with
  | some resp =>
    let bot_reply := pyLower resp
    (add_conversation_message st1 user_id (str "assistant") bot_reply, some bot_reply)
  | none => (st1, none)

/-- `handle_image_generation`: the prompt is the override when given, else the
text after `!img`, stripped; empty prompt means a usage reply; otherwise call
the image executor and reply with the URL or an apology. -/
def handle_image_generation (st : Stores) (img : Str → Option Str)
    (content : Str) (prompt_override : Option Str) : Stores × Str :=
  let prompt := match prompt_override with
    | some p => p
    | none => pyStrip (content.drop 4)
  if prompt.isEmpty then (st, str "please provide an image prompt.")
  else
    match img prompt with
    | some url => (st, url)
    | none => (st, str "sorry, there was an error generating the image.")

/-- `handle_random_gif`: Giphy's random endpoint. -/
def handle_random_gif (st : Stores) (ex : Execs) : Stores × Str :=
  if !ex.giphy_key then (st, str "Giphy API key is not set.")
  else
    match ex.gif_random with
    | none => (st, str "sorry, there was an error fetching a random gif.")
    | some none => (st, str "sorry, I couldn't find a random gif.")
    | some (some url) => (st, url)

/-- `handle_gif_search`: search Giphy; fall back to a random gif when the
search comes back empty. -/
def handle_gif_search (st : Stores) (ex : Execs)
    (content : Str) (query_override : Option Str) : Stores × Str :=
  let query := match query_override with
    | some q => q
    | none => pyStrip (content.drop 4)
  if query.isEmpty then (st, str "please provide a search term for the gif.")
  else if !ex.giphy_key then (st, str "Giphy API key is not set.")
  else
    match ex.gif_search query with
    | none => (st, str "sorry, there was an error searching for a gif.")
    | some (some url) => (st, url)
    | some none => handle_random_gif st ex

/-! ## The event handler `on_message` -/

/-- The tail of `on_message` after the natural-language image-generation rule
fell through: the "with a gif"/"as a gif" rule, the "give me ... random gif"
rule, and the free-conversation fallback.  Returns the new state and the list
of replies sent (at most one; none on a silent failure). -/
def gifStage (st : Stores) (ex : Execs) (m : Message) (lower_content : Str) :
    Stores × List Str :=
  if containsSub (str "with a gif") lower_content
      || containsSub (str "as a gif") lower_content then
    let part0 := if containsSub (str "with a gif") lower_content then
        splitFirstBefore (str "with a gif") lower_content
      else
        splitFirstBefore (str "as a gif") lower_content
    let query := pyStrip part0
    let query := if startsWith (str "lum") query then pyStrip (query.drop 3) else query
    if !query.isEmpty then
      let r := handle_gif_search st ex m.content (some query)
      (r.1, [r.2])
    else (st, [str "please provide a search term for the gif."])
  else if containsSub (str "give me") lower_content
      && containsSub (str "random gif") lower_content then
    let r := handle_random_gif st ex
    (r.1, [r.2])
  else
    let r := handle_bot_message st ex.gen m.author_id m.content
    (r.1, match r.2 with
          | some rep => [rep]
          | none => [])

/-- `on_message`: the full dispatch of `bot.py`, in source order — bot-author
filter, the two gate-bypassing commands, the allowed-channel gate for guild
messages, the `!gif`/`!img` commands, then (only when the message is directed
at the bot) the natural-language rules.  Returns the new state and the
replies sent. -/
def on_message (st : Stores) (ex : Execs) (m : Message) : Stores × List Str :=
  if m.author_is_bot then (st, [])
  else
    let lower_content := pyLower m.content
    if startsWith (str "!setchannel") lower_content then
      let r := handle_set_channel st m
      (r.1, [r.2])
    else if startsWith (str "lum set language to") lower_content then
      let r := handle_set_language st m.content
      (r.1, [r.2])
    else if m.in_guild && !(get_allowed_channels st).contains m.channel_id then
      (st, [])
    else if startsWith (str "!gif") lower_content then
      let r := handle_gif_search st ex m.content none
      (r.1, [r.2])
    else if startsWith (str "!img") lower_content then
      let r := handle_image_generation st ex.img m.content none
      (r.1, [r.2])
    else if is_message_directed_at_bot m then
      if startsWith (str "lum set your opinion on") lower_content then
        let r := handle_set_opinion st m.content
        (r.1, [r.2])
      else if startsWith (str "lum what") lower_content
          && containsSub (str "your opinion on") lower_content then
        let r := handle_get_opinion st (fun p => ex.gen
          [(str "system",
            str "You are lum, a laid-back discord bot with strong opinions and a casual tone."),
           (str "user", p)]) m.content
        (r.1, [r.2.1])
      else
        match generateSearch lower_content with
        | some g =>
          let prompt := pyStrip g
          if !prompt.isEmpty then
            let r := handle_image_generation st ex.img m.content (some prompt)
            (r.1, [r.2])
          else gifStage st ex m lower_content
        | none => gifStage st ex m lower_content
    else (st, [])

/-- A trivial executor environment for concrete runs: every external call
fails (raises) and no Giphy key is configured. -/
def exNone : Execs :=
  ⟨fun _ => none, fun _ => none, fun _ => none, none, false⟩

/-- An executor environment whose image generator echoes its prompt as the
URL, used to observe extracted prompts in concrete runs. -/
def exEcho : Execs :=
  ⟨fun _ => none, fun p => some p, fun _ => none, none, false⟩

/-- Appending a whole list of `(role, content)` turns for one user, in order
(the iterated `add_conversation_message`). -/
def appendTurns (st : Stores) (u : Nat) : List (Str × Str) → Stores
  | [] => st
  | (r, c) :: rest => appendTurns (add_conversation_message st u r c) u rest

/-- No ASCII uppercase letter occurs in the string. -/
def contentNoUpper (s : Str) : Bool := s.all fun c => !('A' ≤ c && c ≤ 'Z')

/-- Every content string in the conversation log is free of ASCII uppercase. -/
def logNoUpper (st : Stores) : Bool :=
  st.conversation_history.all fun e => contentNoUpper e.2.2

/-! ## Helper lemmas -/

theorem startsWith_append_self (p t : Str) : startsWith p (p ++ t) = true := by
  induction p with
  | nil => rfl
  | cons c cs ih => simp [startsWith, ih]

theorem startsWith_iff_take (p s : Str) :
    startsWith p s = true ↔ s.take p.length = p := by
  induction p generalizing s with
  | nil => simp [startsWith]
  | cons c cs ih =>
    cases s with
    | nil => simp [startsWith]
    | cons d ds =>
      simp only [startsWith, List.length_cons, List.take_succ_cons,
        Bool.and_eq_true, decide_eq_true_eq, List.cons.injEq, ih]
      exact ⟨fun ⟨h1, h2⟩ => ⟨h1.symm, h2⟩, fun ⟨h1, h2⟩ => ⟨h1.symm, h2⟩⟩

theorem startsWith_disjoint (p q s : Str)
    (hpq : ¬(p.take q.length = q.take p.length)) (h : startsWith p s = true) :
    startsWith q s = false := by
  rw [startsWith_iff_take] at h
  cases hq : startsWith q s with
  | false => rfl
  | true =>
    rw [startsWith_iff_take] at hq
    refine absurd ?_ hpq
    calc p.take q.length = (s.take p.length).take q.length := by rw [h]
      _ = s.take (min q.length p.length) := by rw [List.take_take]
      _ = s.take (min p.length q.length) := by rw [Nat.min_comm]
      _ = (s.take q.length).take p.length := by rw [List.take_take]
      _ = q.take p.length := by rw [hq]

theorem upsert1_self (k v : Str) (l : List (Str × Str)) :
    (((upsert1 k v l).find? fun e => e.1 = k).map fun e => e.2) = some v := by
  induction l with
  | nil => simp [upsert1]
  | cons hd tl ih =>
    obtain ⟨k', v'⟩ := hd
    by_cases h : k' = k
    · subst h
      simp [upsert1]
    · simp [upsert1, h, List.find?, ih]

theorem upsert1_ne (k v k' : Str) (h : k' ≠ k) (l : List (Str × Str)) :
    ((upsert1 k v l).find? fun e => e.1 = k') = l.find? fun e => e.1 = k' := by
  induction l with
  | nil =>
    simp only [upsert1, List.find?]
    rw [decide_eq_false fun hh : k = k' => h hh.symm]
  | cons hd tl ih =>
    obtain ⟨a, b⟩ := hd
    by_cases ha : a = k
    · subst ha
      have hd' : (decide (a = k') : Bool) = false := decide_eq_false fun hh => h hh.symm
      simp [upsert1, List.find?, hd']
    · simp only [upsert1, if_neg ha, List.find?]
      cases hd' : (decide (a = k') : Bool) with
      | true => rfl
      | false => exact ih

theorem get_set_self (st : Stores) (k v : Str) :
    get_lum_preference (set_lum_preference st k v) k = some v := by
  simpa [get_lum_preference, set_lum_preference] using upsert1_self k v st.lum_preferences

theorem get_set_ne (st : Stores) (k v k' : Str) (h : k' ≠ k) :
    get_lum_preference (set_lum_preference st k v) k' = get_lum_preference st k' := by
  simp [get_lum_preference, set_lum_preference, upsert1_ne k v k' h]

theorem appendTurns_history (u : Nat) (ts : List (Str × Str)) (st : Stores) :
    (appendTurns st u ts).conversation_history =
      st.conversation_history ++ ts.map fun t => (u, t.1, t.2) := by
  induction ts generalizing st with
  | nil => simp [appendTurns]
  | cons hd tl ih =>
    obtain ⟨r, c⟩ := hd
    simp [appendTurns, ih, add_conversation_message]

theorem get_history_appendTurns (st : Stores) (u : Nat) (ts : List (Str × Str))
    (j : Nat) (hj : j ≤ ts.length) :
    get_conversation_history (appendTurns st u ts) u j = ts.drop (ts.length - j) := by
  unfold get_conversation_history
  dsimp only
  rw [appendTurns_history, List.filter_append]
  have hfil : ((ts.map fun t => (u, t.1, t.2)).filter fun e => e.1 = u) =
      ts.map fun t => (u, t.1, t.2) := by
    rw [List.filter_eq_self]
    intro a ha
    obtain ⟨t, _, rfl⟩ := List.mem_map.mp ha
    simp
  rw [hfil, List.map_append]
  have hmm : ((ts.map fun t => (u, t.1, t.2)).map fun e => (e.2.1, e.2.2)) = ts := by
    rw [List.map_map]
    have hco : ((fun e : Nat × Str × Str => (e.2.1, e.2.2)) ∘
        fun t : Str × Str => (u, t.1, t.2)) = id := by
      funext t
      rfl
    rw [hco, List.map_id]
  rw [hmm, List.reverse_append]
  rw [List.take_append_of_le_length (by simpa using hj)]
  rw [List.reverse_take, List.reverse_reverse, List.length_reverse]

/-! ## The claims -/

/-- C7: Conversation Log round-trip — appending turns T1..Tn for a user and
then asking for the most recent n returns exactly T1..Tn oldest-first, and
asking for k ≤ n returns exactly the last k turns in order. -/
theorem c7_conversation_roundtrip (st : Stores) (u : Nat) (ts : List (Str × Str))
    (k : Nat) (hk : k ≤ ts.length) :
    get_conversation_history (appendTurns st u ts) u ts.length = ts ∧
    get_conversation_history (appendTurns st u ts) u k = ts.drop (ts.length - k) := by
  constructor
  · have h := get_history_appendTurns st u ts ts.length le_rfl
    simpa using h
  · exact get_history_appendTurns st u ts k hk

/-- Witness for C7 at a concrete three-turn history with k = 2. -/
theorem c7_witness :
    get_conversation_history (appendTurns Stores.empty 7
        [(str "user", str "t1"), (str "assistant", str "t2"), (str "user", str "t3")]) 7 3 =
      [(str "user", str "t1"), (str "assistant", str "t2"), (str "user", str "t3")] ∧
    get_conversation_history (appendTurns Stores.empty 7
        [(str "user", str "t1"), (str "assistant", str "t2"), (str "user", str "t3")]) 7 2 =
      [(str "assistant", str "t2"), (str "user", str "t3")] :=
  c7_conversation_roundtrip Stores.empty 7
    [(str "user", str "t1"), (str "assistant", str "t2"), (str "user", str "t3")] 2
    (by decide)

/-- C8: channel registration is idempotent — starting from a registry with at
most one row for the channel (the table's primary-key invariant), one
registration leaves exactly one entry for the channel and a second
registration (with any name) is a no-op. -/
theorem c8_setchannel_idempotent (st : Stores) (cid : Nat) (n1 n2 : Str)
    (h : (st.allowed_channels.countP fun e => e.1 = cid) ≤ 1) :
    add_allowed_channel (add_allowed_channel st cid n1) cid n2 =
      add_allowed_channel st cid n1 ∧
    ((add_allowed_channel st cid n1).allowed_channels.countP fun e => e.1 = cid) = 1 := by
  by_cases hmem : st.allowed_channels.any fun e => e.1 = cid
  · have h1 : add_allowed_channel st cid n1 = st := by
      simp [add_allowed_channel, hmem]
    rw [h1]
    refine ⟨by simp [add_allowed_channel, hmem], ?_⟩
    have hpos : 0 < st.allowed_channels.countP fun e => e.1 = cid := by
      rw [List.countP_pos_iff]
      simpa [List.any_eq_true] using hmem
    omega
  · have h0 : (st.allowed_channels.countP fun e => e.1 = cid) = 0 := by
      rw [List.countP_eq_zero]
      intro a ha
      have := fun hp => hmem (List.any_eq_true.mpr ⟨a, ha, hp⟩)
      simpa using this
    have h1 : add_allowed_channel st cid n1 =
        { st with allowed_channels := st.allowed_channels ++ [(cid, n1)] } := by
      simp [add_allowed_channel, hmem]
    rw [h1]
    constructor
    · have hmem2 : (st.allowed_channels ++ [(cid, n1)]).any (fun e => e.1 = cid) = true := by
        rw [List.any_eq_true]
        exact ⟨(cid, n1), by simp, by simp⟩
      simp [add_allowed_channel, hmem2]
    · simp [List.countP_append, h0, List.countP_cons]

/-- Witness for C8: registering channel 1 twice in the empty registry. -/
theorem c8_witness :
    add_allowed_channel (add_allowed_channel Stores.empty 1 (str "general")) 1 (str "general") =
      add_allowed_channel Stores.empty 1 (str "general") ∧
    ((add_allowed_channel Stores.empty 1 (str "general")).allowed_channels.countP
      fun e => e.1 = 1) = 1 :=
  c8_setchannel_idempotent Stores.empty 1 (str "general") (str "general") (by decide)

/-- C5: the greeting-exclusion rule wins — for a non-DM, non-mention message
whose normalized text is a greeting word, a space, and trailing content that
does not make the text a greeting directed at the agent (the two
`greeting_patterns` both fail), `is_message_directed_at_bot` is false, no
matter how the text continues (in particular even when it ends in `?` or
starts a trigger phrase after the greeting). -/
theorem c5_greeting_exclusion (m : Message) (g : Str) (d : Char) (rest : Str)
    (h1 : m.is_dm = false) (h2 : m.mentions_bot = false)
    (hg : g ∈ greetWords)
    (hsplit : pyStrip (pyLower m.content) = g ++ ' ' :: d :: rest)
    (hd : isPyWs d = false)
    (h4 : matchGreetLum (pyStrip (pyLower m.content)) = false)
    (h5 : matchGreetAlone (pyStrip (pyLower m.content)) = false) :
    is_message_directed_at_bot m = false := by
  have h3 : matchGreetOther (pyStrip (pyLower m.content)) = true := by
    rw [hsplit, matchGreetOther, List.any_eq_true]
    refine ⟨g, hg, ?_⟩
    have hsw := startsWith_append_self g (' ' :: d :: rest)
    have hdrop : (g ++ ' ' :: d :: rest).drop g.length = ' ' :: d :: rest :=
      List.drop_left g (' ' :: d :: rest)
    have hws : isPyWs ' ' = true := rfl
    simp only [hsw, hdrop, Bool.true_and]
    simp [List.dropWhile_cons, hws, hd]
  simp [is_message_directed_at_bot, h1, h2, h3, h4, h5]

/-- Witness for C5: "hi john, how are you?" in a guild channel — excluded by
the greeting rule although it ends in a question mark. -/
theorem c5_witness :
    is_message_directed_at_bot
      ⟨false, 3, 4, str "general", false, true, false, str "hi john, how are you?"⟩ = false ∧
    endsWith (str "?")
      (pyStrip (pyLower (str "hi john, how are you?"))) = true :=
  ⟨c5_greeting_exclusion _ (str "hi") 'j' (str "ohn, how are you?") rfl rfl
      (by decide) (by decide) (by decide) (by decide) (by decide),
    by decide⟩

/-- C1 (amended): when the Converse text-generation call fails, the user turn
(lowercased and stripped) has already been appended to the Conversation Log
and stays there, the assistant turn is not written, and no reply is emitted
(the failure is only logged to the console). -/
theorem c1_converse_failure (st : Stores) (gen : List (Str × Str) → Option Str)
    (user_id : Nat) (content : Str)
    (h : gen (converse_request
        (add_conversation_message st user_id (str "user") (pyStrip (pyLower content)))
        user_id) = none) :
    handle_bot_message st gen user_id content =
      (add_conversation_message st user_id (str "user") (pyStrip (pyLower content)), none) := by
  simp only [handle_bot_message]
  rw [h]

/-- Witness for C1's amended theorem at a concrete failing generation. -/
theorem c1_witness :
    handle_bot_message Stores.empty (fun _ => none) 5 (str "Hello There") =
      (add_conversation_message Stores.empty 5 (str "user") (str "hello there"), none) := by
  have h := c1_converse_failure Stores.empty (fun _ => none) 5 (str "Hello There") rfl
  exact h

/-- C1 counterexample: a Converse message whose generation call fails leaves
the user turn written in the Conversation Log and emits no reply at all —
contradicting "no Conversation Log write is made for the failed turn and a
generic apologetic reply is emitted". -/
theorem c1_counterexample :
    (on_message Stores.empty exNone
      ⟨false, 5, 9, str "direct", true, false, false, str "hello there"⟩).1.conversation_history =
      [(5, str "user", str "hello there")] ∧
    (on_message Stores.empty exNone
      ⟨false, 5, 9, str "direct", true, false, false, str "hello there"⟩).2 = [] :=
  ⟨rfl, rfl⟩

/-- C6: a message beginning (case-insensitively) with "lum set language to"
is dispatched to the language handler; a non-empty trimmed remainder is
stored under the `language` preference (and the confirmation is sent), an
empty remainder yields only the usage-hint reply and no store write. -/
theorem c6_set_language (st : Stores) (ex : Execs) (m : Message)
    (hbot : m.author_is_bot = false)
    (h : startsWith (str "lum set language to") (pyLower m.content) = true) :
    on_message st ex m =
      ((handle_set_language st m.content).1, [(handle_set_language st m.content).2]) ∧
    ((pyStrip (m.content.drop 19)).isEmpty = false →
      handle_set_language st m.content =
        (set_lum_preference st (str "language") (pyStrip (m.content.drop 19)),
         str "Language set to **" ++ pyStrip (m.content.drop 19) ++ str "**.") ∧
      get_lum_preference (handle_set_language st m.content).1 (str "language") =
        some (pyStrip (m.content.drop 19))) ∧
    ((pyStrip (m.content.drop 19)).isEmpty = true →
      handle_set_language st m.content =
        (st, str "please provide a language, e.g. 'lum set language to french'")) := by
  have hsc : startsWith (str "!setchannel") (pyLower m.content) = false :=
    startsWith_disjoint _ _ _ (by decide) h
  refine ⟨by simp [on_message, hbot, hsc, h], fun hne => ?_, fun he => ?_⟩
  · have hh : handle_set_language st m.content =
        (set_lum_preference st (str "language") (pyStrip (m.content.drop 19)),
         str "Language set to **" ++ pyStrip (m.content.drop 19) ++ str "**.") := by
      simp [handle_set_language, hne]
    refine ⟨hh, ?_⟩
    rw [hh]
    exact get_set_self st (str "language") (pyStrip (m.content.drop 19))
  · simp [handle_set_language, he]

/-- Witness for C6: "lum set language to french" in an unregistered guild
channel stores `language = french` and confirms; and the empty-remainder
message "lum set language to" writes nothing and sends the usage hint. -/
theorem c6_witness :
    (on_message Stores.empty exNone
        ⟨false, 7, 3, str "general", false, true, false, str "lum set language to french"⟩).2 =
      [str "Language set to **french**."] ∧
    get_lum_preference
      (on_message Stores.empty exNone
        ⟨false, 7, 3, str "general", false, true, false, str "lum set language to french"⟩).1
      (str "language") = some (str "french") ∧
    on_message Stores.empty exNone
        ⟨false, 7, 3, str "general", false, true, false, str "lum set language to"⟩ =
      (Stores.empty, [str "please provide a language, e.g. 'lum set language to french'"]) := by
  have h1 := c6_set_language Stores.empty exNone
    ⟨false, 7, 3, str "general", false, true, false, str "lum set language to french"⟩
    rfl (by decide)
  have h2 := c6_set_language Stores.empty exNone
    ⟨false, 7, 3, str "general", false, true, false, str "lum set language to"⟩
    rfl (by decide)
  refine ⟨?_, ?_, ?_⟩
  · rw [h1.1, (h1.2.1 (by decide)).1]
    rfl
  · rw [h1.1]
    exact (h1.2.1 (by decide)).2
  · rw [h2.1, h2.2.2 (by decide)]

theorem handle_get_opinion_miss (st : Stores) (gen : Str → Option Str)
    (content subjG : Str)
    (hmatch : getOpinionScan content = some subjG)
    (hmiss : get_lum_preference st (pyStrip subjG) = none) :
    handle_get_opinion st gen content =
      match gen (opinion_prompt st (pyStrip subjG)) with
      | some resp =>
        (set_lum_preference st (pyStrip subjG) (pyStrip resp),
         str "My opinion on **" ++ pyStrip subjG ++ str "** is: " ++ pyStrip resp, 1)
      | none =>
        (st, str "Sorry, I couldn't generate an opinion on that right now.", 1) := by
  simp only [handle_get_opinion, hmatch]
  rw [hmiss]
  simp

theorem handle_get_opinion_hit (st : Stores) (gen : Str → Option Str)
    (content subjG op : Str)
    (hmatch : getOpinionScan content = some subjG)
    (hhit : get_lum_preference st (pyStrip subjG) = some op)
    (hop : op.isEmpty = false) :
    handle_get_opinion st gen content =
      (st, str "My opinion on **" ++ pyStrip subjG ++ str "** is: " ++ op, 0) := by
  simp only [handle_get_opinion, hmatch]
  rw [hhit]
  simp [hop]

/-- C4 (amended): generate-and-memoize, provided the generated text is
non-empty after trimming — on a subject with no stored opinion the first
query calls the text-generation executor once and stores the trimmed result;
every later identical query answers from the store, leaves the state
unchanged and makes no executor call (count 0, for any executor). -/
theorem c4_generate_and_memoize (st : Stores) (content subjG gtext : Str)
    (hmatch : getOpinionScan content = some subjG)
    (hmiss : get_lum_preference st (pyStrip subjG) = none)
    (hne : (pyStrip gtext).isEmpty = false) :
    (handle_get_opinion st (fun _ => some gtext) content).2.2 = 1 ∧
    get_lum_preference (handle_get_opinion st (fun _ => some gtext) content).1
      (pyStrip subjG) = some (pyStrip gtext) ∧
    ∀ gen2 : Str → Option Str,
      handle_get_opinion (handle_get_opinion st (fun _ => some gtext) content).1
          gen2 content =
        ((handle_get_opinion st (fun _ => some gtext) content).1,
         str "My opinion on **" ++ pyStrip subjG ++ str "** is: " ++ pyStrip gtext, 0) := by
  have h1 := handle_get_opinion_miss st (fun _ => some gtext) content subjG hmatch hmiss
  simp only at h1
  rw [h1]
  refine ⟨rfl, get_set_self st (pyStrip subjG) (pyStrip gtext), fun gen2 => ?_⟩
  exact handle_get_opinion_hit _ gen2 content subjG (pyStrip gtext) hmatch
    (get_set_self st (pyStrip subjG) (pyStrip gtext)) hne

/-- Witness for C4's amended theorem on subject "pizza". -/
theorem c4_witness :
    (handle_get_opinion Stores.empty (fun _ => some (str " Tasty. "))
        (str "lum what's your opinion on pizza")).2.2 = 1 ∧
    get_lum_preference
      (handle_get_opinion Stores.empty (fun _ => some (str " Tasty. "))
        (str "lum what's your opinion on pizza")).1 (str "pizza") = some (str "Tasty.") ∧
    handle_get_opinion
        (handle_get_opinion Stores.empty (fun _ => some (str " Tasty. "))
          (str "lum what's your opinion on pizza")).1
        (fun _ => none) (str "lum what's your opinion on pizza") =
      ((handle_get_opinion Stores.empty (fun _ => some (str " Tasty. "))
          (str "lum what's your opinion on pizza")).1,
       str "My opinion on **pizza** is: Tasty.", 0) := by
  have h := c4_generate_and_memoize Stores.empty (str "lum what's your opinion on pizza")
    (str "pizza") (str " Tasty. ") (by decide) rfl (by decide)
  exact ⟨h.1, h.2.1, h.2.2 (fun _ => none)⟩

/-- C4 counterexample: when the executor returns an empty string, the first
query does store the generated text (the empty string), yet a second
identical query calls the executor again (its call count is 1, not 0) —
Python's truthiness treats the memoized empty opinion as a miss. -/
theorem c4_counterexample :
    (handle_get_opinion Stores.empty (fun _ => some [])
        (str "lum what's your opinion on pizza")).2.2 = 1 ∧
    get_lum_preference
      (handle_get_opinion Stores.empty (fun _ => some [])
        (str "lum what's your opinion on pizza")).1 (str "pizza") = some [] ∧
    (handle_get_opinion
        (handle_get_opinion Stores.empty (fun _ => some [])
          (str "lum what's your opinion on pizza")).1
        (fun _ => some []) (str "lum what's your opinion on pizza")).2.2 = 1 :=
  ⟨rfl, rfl, rfl⟩

/-- C9: opinion subjects are case-sensitive at lookup — the commands match
case-insensitively but keep the subject's original casing, and the store
lookup is exact, so an opinion stored for "Pizza" is missed by a query for
"pizza", which takes the generate-and-memoize path under the lowercased key. -/
theorem c9_opinion_case_sensitive (st : Stores) (gtext : Str)
    (h : get_lum_preference st (str "pizza") = none) :
    get_lum_preference
      (handle_set_opinion st (str "lum set your opinion on Pizza to it's great")).1
      (str "Pizza") = some (str "it's great") ∧
    get_lum_preference
      (handle_set_opinion st (str "lum set your opinion on Pizza to it's great")).1
      (str "pizza") = none ∧
    (handle_get_opinion
      (handle_set_opinion st (str "lum set your opinion on Pizza to it's great")).1
      (fun _ => some gtext) (str "lum what's your opinion on pizza")).2.2 = 1 ∧
    get_lum_preference
      (handle_get_opinion
        (handle_set_opinion st (str "lum set your opinion on Pizza to it's great")).1
        (fun _ => some gtext) (str "lum what's your opinion on pizza")).1
      (str "pizza") = some (pyStrip gtext) := by
  have hscan : setOpinionScan (str "lum set your opinion on Pizza to it's great") =
      some (str "Pizza", str "it's great") := by decide
  have hset : (handle_set_opinion st (str "lum set your opinion on Pizza to it's great")).1 =
      set_lum_preference st (str "Pizza") (str "it's great") := by
    simp only [handle_set_opinion, hscan]
    rfl
  rw [hset]
  have hmiss : get_lum_preference (set_lum_preference st (str "Pizza") (str "it's great"))
      (str "pizza") = none := by
    rw [get_set_ne st (str "Pizza") (str "it's great") (str "pizza") (by decide)]
    exact h
  have hgen := handle_get_opinion_miss
    (set_lum_preference st (str "Pizza") (str "it's great")) (fun _ => some gtext)
    (str "lum what's your opinion on pizza") (str "pizza") (by decide) hmiss
  simp only at hgen
  rw [hgen]
  exact ⟨get_set_self st (str "Pizza") (str "it's great"), hmiss, rfl,
    get_set_self _ (str "pizza") (pyStrip gtext)⟩

/-- Witness for C9 from the empty store with a concrete generated text. -/
theorem c9_witness :
    get_lum_preference
      (handle_set_opinion Stores.empty (str "lum set your opinion on Pizza to it's great")).1
      (str "Pizza") = some (str "it's great") ∧
    get_lum_preference
      (handle_set_opinion Stores.empty (str "lum set your opinion on Pizza to it's great")).1
      (str "pizza") = none ∧
    (handle_get_opinion
      (handle_set_opinion Stores.empty (str "lum set your opinion on Pizza to it's great")).1
      (fun _ => some (str "pizza rules")) (str "lum what's your opinion on pizza")).2.2 = 1 ∧
    get_lum_preference
      (handle_get_opinion
        (handle_set_opinion Stores.empty (str "lum set your opinion on Pizza to it's great")).1
        (fun _ => some (str "pizza rules")) (str "lum what's your opinion on pizza")).1
      (str "pizza") = some (str "pizza rules") :=
  c9_opinion_case_sensitive Stores.empty (str "pizza rules") rfl

/-- C3 (amended): a non-bot message in a guild channel not present in the
Allowed-Channel Registry gets no reply and changes nothing — except for the
two gate-bypassing commands: a message beginning with "!setchannel" is always
handled by the channel-registration handler. -/
theorem c3_permission_gate (st : Stores) (ex : Execs) (m : Message)
    (hbot : m.author_is_bot = false) (hg : m.in_guild = true)
    (hch : (get_allowed_channels st).contains m.channel_id = false) :
    (startsWith (str "!setchannel") (pyLower m.content) = false →
     startsWith (str "lum set language to") (pyLower m.content) = false →
     on_message st ex m = (st, [])) ∧
    (startsWith (str "!setchannel") (pyLower m.content) = true →
     on_message st ex m = ((handle_set_channel st m).1, [(handle_set_channel st m).2])) := by
  constructor
  · intro h1 h2
    have hch' : m.channel_id ∉ get_allowed_channels st := by
      simpa using hch
    simp [on_message, hbot, h1, h2, hg, hch']
  · intro h1
    simp [on_message, hbot, h1]

/-- Witness for C3's amended theorem: an ordinary message in an unregistered
guild channel is silently dropped, while "!setchannel" in the same channel is
handled. -/
theorem c3_witness :
    on_message Stores.empty exNone
        ⟨false, 3, 9, str "general", false, true, false, str "hello everyone"⟩ =
      (Stores.empty, []) ∧
    on_message Stores.empty exNone
        ⟨false, 3, 9, str "general", false, true, false, str "!setchannel"⟩ =
      ((handle_set_channel Stores.empty
          ⟨false, 3, 9, str "general", false, true, false, str "!setchannel"⟩).1,
       [(handle_set_channel Stores.empty
          ⟨false, 3, 9, str "general", false, true, false, str "!setchannel"⟩).2]) := by
  constructor
  · exact (c3_permission_gate Stores.empty exNone
      ⟨false, 3, 9, str "general", false, true, false, str "hello everyone"⟩
      rfl rfl (by decide)).1 (by decide) (by decide)
  · exact (c3_permission_gate Stores.empty exNone
      ⟨false, 3, 9, str "general", false, true, false, str "!setchannel"⟩
      rfl rfl (by decide)).2 (by decide)

/-- C3 counterexample: "lum set language to french" in a guild channel that
is not in the registry does NOT begin with the channel-registration token and
still produces a reply — the channel-registration command is not the single
exception to the permission gate. -/
theorem c3_counterexample :
    (on_message Stores.empty exNone
        ⟨false, 3, 42, str "general", false, true, false, str "lum set language to french"⟩).2 =
      [str "Language set to **french**."] ∧
    startsWith (str "!setchannel") (pyLower (str "lum set language to french")) = false ∧
    (get_allowed_channels Stores.empty).contains 42 = false :=
  ⟨rfl, rfl, rfl⟩

theorem char_le_iff (a b : Char) : a ≤ b ↔ a.toNat ≤ b.toNat := by
  rw [Char.le_def, UInt32.le_def]
  rfl

theorem char_toNat_ofNat (n : Nat) (h : n < 0xd800) : (Char.ofNat n).toNat = n := by
  simp [Char.ofNat, Char.toNat, h, Nat.isValidChar, Char.ofNatAux, UInt32.toNat,
    BitVec.toNat_ofNatLt]

theorem noUpper_pyLowerChar (c : Char) :
    (!('A' ≤ pyLowerChar c && pyLowerChar c ≤ 'Z')) = true := by
  unfold pyLowerChar
  cases hb : ('A' ≤ c && c ≤ 'Z') with
  | false =>
    rw [if_neg (by simp [hb])]
    simp [hb]
  | true =>
    rw [if_pos (by simp [hb])]
    have hAZ : 'A' ≤ c ∧ c ≤ 'Z' := by simpa using hb
    have h90 : Char.toNat 'Z' = 90 := rfl
    have h65 : Char.toNat 'A' = 65 := rfl
    have hup : c.toNat ≤ 90 := by
      have hle := (char_le_iff c 'Z').mp hAZ.2
      omega
    have hlow : 65 ≤ c.toNat := by
      have hle := (char_le_iff 'A' c).mp hAZ.1
      omega
    have htn : (Char.ofNat (c.toNat + 32)).toNat = c.toNat + 32 :=
      char_toNat_ofNat _ (by omega)
    have hz : ¬(Char.ofNat (c.toNat + 32) ≤ 'Z') := by
      rw [char_le_iff, htn]
      intro hcon
      omega
    simp [hz]

theorem contentNoUpper_pyLower (s : Str) : contentNoUpper (pyLower s) = true := by
  rw [contentNoUpper, List.all_eq_true]
  intro c hc
  obtain ⟨c0, _, rfl⟩ := List.mem_map.mp hc
  exact noUpper_pyLowerChar c0

theorem mem_of_mem_pyStrip (c : Char) (s : Str) (h : c ∈ pyStrip s) : c ∈ s := by
  unfold pyStrip at h
  rw [List.mem_reverse] at h
  have h2 : c ∈ (s.dropWhile isPyWs).reverse :=
    (List.dropWhile_sublist _).subset h
  rw [List.mem_reverse] at h2
  exact (List.dropWhile_sublist _).subset h2

theorem contentNoUpper_pyStrip (s : Str) (h : contentNoUpper s = true) :
    contentNoUpper (pyStrip s) = true := by
  rw [contentNoUpper, List.all_eq_true] at h ⊢
  exact fun c hc => h c (mem_of_mem_pyStrip c s hc)

theorem logNoUpper_add (st : Stores) (u : Nat) (role content : Str)
    (h : logNoUpper st = true) (hc : contentNoUpper content = true) :
    logNoUpper (add_conversation_message st u role content) = true := by
  rw [logNoUpper] at h
  simp [logNoUpper, add_conversation_message, List.all_append, h, hc]

/-- C10: the Converse path writes only normalized text to the Conversation
Log — the user turn is stored lowercased and stripped before generation is
invoked, and the assistant turn is stored (and sent) lowercased — so a log
free of ASCII uppercase stays free of ASCII uppercase. -/
theorem c10_log_normalized (st : Stores) (gen : List (Str × Str) → Option Str)
    (u : Nat) (content : Str) (h : logNoUpper st = true) :
    logNoUpper (handle_bot_message st gen u content).1 = true ∧
    ((handle_bot_message st gen u content).1.conversation_history =
        st.conversation_history ++ [(u, str "user", pyStrip (pyLower content))] ∨
      ∃ resp,
        gen (converse_request
          (add_conversation_message st u (str "user") (pyStrip (pyLower content))) u) =
          some resp ∧
        (handle_bot_message st gen u content).1.conversation_history =
          st.conversation_history ++
            [(u, str "user", pyStrip (pyLower content)),
             (u, str "assistant", pyLower resp)] ∧
        (handle_bot_message st gen u content).2 = some (pyLower resp)) := by
  have huser : contentNoUpper (pyStrip (pyLower content)) = true :=
    contentNoUpper_pyStrip _ (contentNoUpper_pyLower content)
  cases hgen : gen (converse_request
      (add_conversation_message st u (str "user") (pyStrip (pyLower content))) u) with
  | none =>
    have hh : handle_bot_message st gen u content =
        (add_conversation_message st u (str "user") (pyStrip (pyLower content)), none) := by
      simp only [handle_bot_message]
      rw [hgen]
    rw [hh]
    exact ⟨logNoUpper_add st u _ _ h huser, Or.inl (by simp [add_conversation_message])⟩
  | some resp =>
    have hh : handle_bot_message st gen u content =
        (add_conversation_message
          (add_conversation_message st u (str "user") (pyStrip (pyLower content)))
          u (str "assistant") (pyLower resp), some (pyLower resp)) := by
      simp only [handle_bot_message]
      rw [hgen]
    rw [hh]
    refine ⟨logNoUpper_add _ u _ _ (logNoUpper_add st u _ _ h huser)
      (contentNoUpper_pyLower resp), Or.inr ⟨resp, hgen ▸ rfl, ?_, rfl⟩⟩
    simp [add_conversation_message]

/-- Witness for C10 with a concrete uppercase message and reply. -/
theorem c10_witness :
    logNoUpper (handle_bot_message Stores.empty
      (fun _ => some (str "OK Then")) 2 (str "HI")).1 = true :=
  (c10_log_normalized Stores.empty (fun _ => some (str "OK Then")) 2 (str "HI")
    (by decide)).1

theorem char_eq_iff (a b : Char) : a = b ↔ a.toNat = b.toNat :=
  ⟨fun h => h ▸ rfl, fun h => Char.eq_of_val_eq (UInt32.toNat.inj h)⟩

theorem isPyWs_eq_false_of_toNat (c : Char) (h1 : c.toNat ≠ 32) (h2 : c.toNat ≠ 9)
    (h3 : c.toNat ≠ 10) (h4 : c.toNat ≠ 13) (h5 : c.toNat ≠ 11) (h6 : c.toNat ≠ 12) :
    isPyWs c = false := by
  have hne : ∀ (d : Char), c.toNat ≠ d.toNat → (decide (c = d)) = false :=
    fun d hd => decide_eq_false fun hh => hd (hh ▸ rfl)
  unfold isPyWs
  rw [hne ' ' h1, hne '\t' h2, hne '\n' h3, hne '\r' h4, hne '\x0b' h5, hne '\x0c' h6]
  rfl

theorem isPyWs_pyLowerChar (c : Char) : isPyWs (pyLowerChar c) = isPyWs c := by
  unfold pyLowerChar
  cases hb : ('A' ≤ c && c ≤ 'Z') with
  | false => rw [if_neg (by simp [hb])]
  | true =>
    rw [if_pos (by simp [hb])]
    have hAZ : 'A' ≤ c ∧ c ≤ 'Z' := by simpa using hb
    have h90 : Char.toNat 'Z' = 90 := rfl
    have h65 : Char.toNat 'A' = 65 := rfl
    have hup : c.toNat ≤ 90 := by
      have := (char_le_iff c 'Z').mp hAZ.2
      omega
    have hlow : 65 ≤ c.toNat := by
      have := (char_le_iff 'A' c).mp hAZ.1
      omega
    have htn : (Char.ofNat (c.toNat + 32)).toNat = c.toNat + 32 :=
      char_toNat_ofNat _ (by omega)
    rw [isPyWs_eq_false_of_toNat _ (by rw [htn]; omega) (by rw [htn]; omega)
        (by rw [htn]; omega) (by rw [htn]; omega) (by rw [htn]; omega) (by rw [htn]; omega),
      isPyWs_eq_false_of_toNat c (by omega) (by omega) (by omega) (by omega)
        (by omega) (by omega)]

theorem pyLowerChar_ne_newline (c : Char) (h : ¬c = '\n') : ¬pyLowerChar c = '\n' := by
  unfold pyLowerChar
  cases hb : ('A' ≤ c && c ≤ 'Z') with
  | false =>
    rw [if_neg (by simp [hb])]
    exact h
  | true =>
    rw [if_pos (by simp [hb])]
    have hAZ : 'A' ≤ c ∧ c ≤ 'Z' := by simpa using hb
    have h65 : Char.toNat 'A' = 65 := rfl
    have hlow : 65 ≤ c.toNat := by
      have := (char_le_iff 'A' c).mp hAZ.1
      omega
    have h90 : Char.toNat 'Z' = 90 := rfl
    have hup : c.toNat ≤ 90 := by
      have := (char_le_iff c 'Z').mp hAZ.2
      omega
    have htn : (Char.ofNat (c.toNat + 32)).toNat = c.toNat + 32 :=
      char_toNat_ofNat _ (by omega)
    intro hcon
    have h10 : (Char.ofNat (c.toNat + 32)).toNat = Char.toNat '\n' := hcon ▸ rfl
    have hnl : Char.toNat '\n' = 10 := rfl
    omega

theorem head_not_ws_of_dropWhile (c : Char) (cs : Str)
    (h : (c :: cs).dropWhile isPyWs = c :: cs) : isPyWs c = false := by
  cases hb : isPyWs c with
  | false => rfl
  | true =>
    rw [List.dropWhile_cons, hb] at h
    simp only [if_true] at h
    have h1 : (cs.dropWhile isPyWs).length ≤ cs.length :=
      (List.dropWhile_sublist _).length_le
    rw [h, List.length_cons] at h1
    omega

theorem pyStrip_cons_not_ws (c : Char) (cs : Str) (hc : isPyWs c = false) :
    (pyStrip (c :: cs)).isEmpty = false := by
  unfold pyStrip
  rw [List.dropWhile_cons, hc, if_neg Bool.false_ne_true]
  cases hemp : (((c :: cs).reverse.dropWhile isPyWs).reverse).isEmpty with
  | false => rfl
  | true =>
    exfalso
    rw [List.isEmpty_iff, List.reverse_eq_nil_iff, List.dropWhile_eq_nil_iff] at hemp
    have := hemp c (by simp)
    rw [hc] at this
    exact Bool.false_ne_true this

theorem generateSearch_append (c : Char) (cs : Str)
    (hc : isPyWs c = false)
    (hnl : ∀ x ∈ c :: cs, ¬x = '\n') :
    generateSearch (str "lum generate " ++ (c :: cs)) = some (c :: cs) := by
  have htw : (c :: cs).takeWhile isPyWs = [] := by
    rw [List.takeWhile_cons, hc, if_neg Bool.false_ne_true]
  have h2 : genAfterLum (str " generate " ++ (c :: cs)) =
      matchWsDotPlus ((' ' :: c :: cs).takeWhile isPyWs).length (' ' :: c :: cs) := rfl
  have h3 : (' ' :: c :: cs).takeWhile isPyWs = [' '] := by
    rw [List.takeWhile_cons, show isPyWs ' ' = true from rfl, if_pos rfl, htw]
  have hcn : ¬c = '\n' := hnl c (by simp)
  have h4 : matchWsDotPlus 1 (' ' :: c :: cs) = some (c :: cs) := by
    show matchWsDotPlus (0 + 1) (' ' :: c :: cs) = some (c :: cs)
    simp only [matchWsDotPlus, List.drop_succ_cons, List.drop_zero]
    rw [if_neg hcn]
    congr 1
    rw [List.takeWhile_eq_self_iff]
    intro x hx
    simp [hnl x hx]
  have h5 : genAfterLum ((str "lum generate " ++ (c :: cs)).drop 3) = some (c :: cs) := by
    rw [show (str "lum generate " ++ (c :: cs)).drop 3 =
        str " generate " ++ (c :: cs) from rfl, h2, h3]
    exact h4
  have h6 : generateSearch (str "lum generate " ++ (c :: cs)) =
      match genAfterLum ((str "lum generate " ++ (c :: cs)).drop 3) with
      | some g => some g
      | none => genScan (some 'l') (str "um generate " ++ (c :: cs)) := rfl
  rw [h6, h5]

/-- C2 (amended): a DM "lum generate <t>" whose remainder `t` has no leading
whitespace, is non-empty and contains no newline is routed to image
generation with prompt equal to the trimmed remainder of the lowercased
text; with the empty remainder ("lum generate ") the natural-language
generate rule does not fire and the message falls through to the
free-conversation handler (with its usual log writes), not to a usage-hint
parameter error. -/
theorem c2_generate_routing (st : Stores) (ex : Execs) (uid cid : Nat)
    (cname : Str) (mb : Bool) (t : Str)
    (hne : t ≠ []) (htrim : t.dropWhile isPyWs = t) (hnl : ∀ x ∈ t, ¬x = '\n') :
    on_message st ex ⟨false, uid, cid, cname, true, false, mb, str "lum generate " ++ t⟩ =
      ((handle_image_generation st ex.img (str "lum generate " ++ t)
          (some (pyStrip (pyLower t)))).1,
       [(handle_image_generation st ex.img (str "lum generate " ++ t)
          (some (pyStrip (pyLower t)))).2]) ∧
    on_message st ex ⟨false, uid, cid, cname, true, false, mb, str "lum generate "⟩ =
      (let r := handle_bot_message st ex.gen uid (str "lum generate ")
       (r.1, match r.2 with
             | some rep => [rep]
             | none => [])) := by
  constructor
  · have hlc : pyLower (str "lum generate " ++ t) = str "lum generate " ++ pyLower t := by
      unfold pyLower
      rw [List.map_append]
      rfl
    have hne' : pyLower t ≠ [] := by
      intro hh
      exact hne (by simpa [pyLower] using hh)
    have htrim' : (pyLower t).dropWhile isPyWs = pyLower t := by
      unfold pyLower
      rw [List.dropWhile_map, show (isPyWs ∘ pyLowerChar) = isPyWs from funext isPyWs_pyLowerChar,
        htrim]
    have hnl' : ∀ x ∈ pyLower t, ¬x = '\n' := by
      intro x hx
      obtain ⟨x0, hx0, rfl⟩ := List.mem_map.mp hx
      exact pyLowerChar_ne_newline x0 (hnl x0 hx0)
    obtain ⟨c, cs, hcc⟩ := List.exists_cons_of_ne_nil hne'
    have hc : isPyWs c = false := head_not_ws_of_dropWhile c cs (hcc ▸ htrim')
    have hgen : generateSearch (pyLower (str "lum generate " ++ t)) = some (pyLower t) := by
      rw [hlc, hcc]
      exact generateSearch_append c cs hc (hcc ▸ hnl')
    have hprompt : (pyStrip (pyLower t)).isEmpty = false := by
      rw [hcc]
      exact pyStrip_cons_not_ws c cs hc
    have hlum : startsWith (str "lum generate ")
        (pyLower (str "lum generate " ++ t)) = true := by
      rw [hlc]
      exact startsWith_append_self _ _
    have hf1 := startsWith_disjoint _ (str "!setchannel") _ (by decide) hlum
    have hf2 := startsWith_disjoint _ (str "lum set language to") _ (by decide) hlum
    have hf3 := startsWith_disjoint _ (str "!gif") _ (by decide) hlum
    have hf4 := startsWith_disjoint _ (str "!img") _ (by decide) hlum
    have hf5 := startsWith_disjoint _ (str "lum set your opinion on") _ (by decide) hlum
    have hf6 := startsWith_disjoint _ (str "lum what") _ (by decide) hlum
    simp [on_message, hf1, hf2, hf3, hf4, hf5, hf6, hgen, hprompt,
      is_message_directed_at_bot]
  · rfl

/-- Witness for C2's amended theorem: the spec's own example prompt, with an
image executor that echoes its prompt. -/
theorem c2_witness :
    on_message Stores.empty exEcho
        ⟨false, 5, 9, str "dm", true, false, false,
         str "lum generate a sunset over the ocean"⟩ =
      (Stores.empty, [str "a sunset over the ocean"]) := by
  have h := c2_generate_routing Stores.empty exEcho 5 9 (str "dm") false
    (str "a sunset over the ocean") (by decide) (by decide) (by decide)
  exact h.1

/-- C2 counterexample: "lum generate " (empty remainder) is not treated as a
parameter error — it reaches the Converse handler, which writes the user
turn to the Conversation Log (a store write) and, with a failing generator,
sends no usage-hint reply at all. -/
theorem c2_counterexample :
    (on_message Stores.empty exNone
        ⟨false, 5, 9, str "dm", true, false, false, str "lum generate "⟩).1.conversation_history =
      [(5, str "user", str "lum generate")] ∧
    (on_message Stores.empty exNone
        ⟨false, 5, 9, str "dm", true, false, false, str "lum generate "⟩).2 = [] :=
  ⟨rfl, rfl⟩

end LumBot
